import Mathlib

set_option maxRecDepth 8000

/- Verification development for the Keypirinha PythonLib file-filter core
(`filefilter.py`).  The embedding fixes the platform the library targets,
Windows (`os.name == 'nt'`), so `os.sep = '\\'`, `os.path` is `ntpath` and
`IS_WINDOWS` is `true`; the one platform-dependent helper, `norm_case`, is
additionally modeled with an explicit platform parameter.  The standard
library (`ntpath`, `fnmatch`, `glob`, `re`, `str`) is modeled after CPython
3.6, the interpreter generation the library ships with (the source's `PY36`
guard); in particular `ntpath.splitdrive` is the 3.6 algorithm, which
predates the special `\\?\` handling CPython added later.  Python strings
are modeled through their character lists; `str.lower` and `re.IGNORECASE`
are modeled on ASCII, which covers every string this development handles.
Python exceptions are modeled by `Except PyErr`. -/

/-- Python whitespace class for the relevant ASCII characters (`\s` of `re`,
`str.strip` and `str.split`). -/
def pyIsSpace (c : Char) : Bool :=
  c == ' ' || c == '\t' || c == '\n' || c == '\r' || c == '\x0b' || c == '\x0c'

/-- ASCII model of Python `str.lower` on one character. -/
def lowerChar (c : Char) : Char :=
  if 65 ≤ c.toNat ∧ c.toNat ≤ 90 then Char.ofNat (c.toNat + 32) else c

/-- One character of `s.replace('/', '\\')`. -/
def slashChar (c : Char) : Char := if c == '/' then '\\' else c

/-- Python `str.lower` (ASCII model). -/
def pyLower (s : String) : String := String.mk (s.toList.map lowerChar)

/-- Python `s.replace('/', '\\')`. -/
def replaceSlashes (s : String) : String := String.mk (s.toList.map slashChar)

/-- `ntpath.normcase`: replace `/` by `\` then lowercase. -/
def ntNormcase (s : String) : String := pyLower (replaceSlashes s)

/-- filefilter.py line 16: `IS_WINDOWS = os.name == 'nt'`; the embedding
models the library on its target platform. -/
def IS_WINDOWS : Bool := true

/-- Filter.norm_case, filefilter.py lines 93-96, with the platform made an
explicit parameter: `os.path.normcase(s) if IS_WINDOWS else s.lower()`. -/
def Filter.norm_case_of (isWindows : Bool) (s : String) : String :=
  if isWindows then ntNormcase s else pyLower s

/-- Filter.norm_case as the matchers call it (platform fixed to Windows). -/
def Filter.norm_case (s : String) : String := Filter.norm_case_of IS_WINDOWS s

/-- Index of the first `\` at position `start` or later (Python
`normp.find('\\', start)`). -/
def findSepFrom (l : List Char) (start : Nat) : Option Nat :=
  match (l.drop start).findIdx? (fun c => c == '\\') with
  | some i => some (start + i)
  | none => none

/-- ntpath.splitdrive for text input: drive-letter (`c:`) and UNC
(`\\server\share`) prefixes are split off; the checks run on the
slash-normalized copy while the returned pieces slice the original. -/
def splitdriveL (p : List Char) : List Char × List Char :=
  if 2 ≤ p.length then
    let normp := p.map slashChar
    if normp.take 2 = ['\\', '\\'] ∧ normp[2]? ≠ some '\\' then
      match findSepFrom normp 2 with
      | none => ([], p)
      | some index =>
        match findSepFrom normp (index + 1) with
        | some index2 =>
          if index2 = index + 1 then ([], p)
          else (p.take index2, p.drop index2)
        | none => (p, [])
    else if normp[1]? = some ':' then (p.take 2, p.drop 2)
    else ([], p)
  else ([], p)

/-- ntpath.splitdrive on strings. -/
def splitdriveS (s : String) : String × String :=
  let dp := splitdriveL s.toList
  (String.mk dp.1, String.mk dp.2)

/-- The `\\.\` and `\\?\` device and literal prefixes that ntpath.normpath
returns unchanged. -/
def specialPfx (p : List Char) : Bool :=
  match p with
  | '\\' :: '\\' :: '.' :: '\\' :: _ => true
  | '\\' :: '\\' :: '?' :: '\\' :: _ => true
  | _ => false

/-- Python `path.split('\\')` (keeps empty pieces; the empty string splits to
one empty piece). -/
def splitSepAux : List Char → List Char → List (List Char)
  | cur, [] => [cur.reverse]
  | cur, '\\' :: rest => cur.reverse :: splitSepAux [] rest
  | cur, c :: rest => splitSepAux (c :: cur) rest

/-- The component-rewriting loop of ntpath.normpath, as a left fold over the
components with the already-kept components as the stack.  `rooted` is
`prefix.endswith(sep)`. -/
def normLoop (rooted : Bool) : List (List Char) → List (List Char) → List (List Char)
  | stack, [] => stack
  | stack, c :: rest =>
    if c = [] ∨ c = ['.'] then normLoop rooted stack rest
    else if c = ['.', '.'] then
      if stack ≠ [] ∧ stack.getLast? ≠ some ['.', '.'] then
        normLoop rooted stack.dropLast rest
      else if stack = [] ∧ rooted = true then normLoop rooted stack rest
      else normLoop rooted (stack ++ [c]) rest
    else normLoop rooted (stack ++ [c]) rest

/-- Python `sep.join(comps)`. -/
def joinSep : List (List Char) → List Char
  | [] => []
  | [x] => x
  | x :: y :: rest => x ++ '\\' :: joinSep (y :: rest)

/-- ntpath.normpath for text input: special prefixes are returned unchanged;
otherwise slashes are normalized, the drive is split off, leading separators
collapse into the prefix, and `.`, `..` and empty components are rewritten. -/
def normpathL (path : List Char) : List Char :=
  if specialPfx path then path
  else
    let q := path.map slashChar
    let dp := splitdriveL q
    let rooted := dp.2.head? = some '\\'
    let pre := if rooted then dp.1 ++ ['\\'] else dp.1
    let rest := if rooted then dp.2.dropWhile (fun c => c == '\\') else dp.2
    let comps := normLoop (pre.getLast? == some '\\') [] (splitSepAux [] rest)
    if pre = [] ∧ comps = [] then ['.']
    else pre ++ joinSep comps

/-- ntpath.normpath on strings. -/
def normpath (s : String) : String := String.mk (normpathL s.toList)

/-- ntpath.isabs: the post-drive tail begins with a separator. -/
def isabsS (s : String) : Bool :=
  match (splitdriveL s.toList).2 with
  | [] => false
  | c :: _ => c == '\\' || c == '/'

/-- ntpath.basename: the part of the post-drive tail after its last
separator of either kind. -/
def basenameS (s : String) : String :=
  let t := (splitdriveL s.toList).2
  String.mk ((t.reverse.takeWhile (fun c => !(c == '\\' || c == '/'))).reverse)

/-- glob.has_magic: the pattern contains `*`, `?` or `[`. -/
def hasMagic (s : String) : Bool :=
  s.toList.any (fun c => c == '*' || c == '?' || c == '[')

/-- The Python exceptions the filter core raises. -/
inductive PyErr where
  | valueError (msg : String)
  | attributeError (msg : String)
  | assertionError
  | notImplementedError
deriving DecidableEq

/-- Filter.norm_path, filefilter.py lines 73-91: normalize, and for a pattern
split the drive and reject absolute or empty remainders. -/
def Filter.norm_path (path : String) (ispattern : Bool) : Except PyErr String :=
  let path := normpath path
  if ispattern then
    let dp := splitdriveS path
    if dp.1 ≠ "" ∨ isabsS dp.2 = true then
      .error (.valueError ("absolute path in filter"))
    else if dp.2 = "" then .error (.valueError ("invalid path format"))
    else .ok dp.2
  else .ok path

/-- Fueled matcher for `re.compile(fnmatch.translate(pattern)).match(s)` on
patterns made of literals, `*` and `?` (the fragment this development uses;
character classes `[...]` are kept out of the model at construction).
fnmatch.translate maps `*` to `.*` and `?` to `.` inside `(?s:...)\Z`, so `*`
matches any character sequence, separators included, `?` any one character,
and the whole string must be consumed.  Every recursive call strictly
decreases `ps.length + l.length`, so the fuel `ps.length + l.length + 1`
used by `globMatch` never runs out. -/
def globMatchF : Nat → List Char → List Char → Bool
  | 0, _, _ => false
  | n + 1, ps, l =>
    match ps, l with
    | [], [] => true
    | [], _ :: _ => false
    | '*' :: ps2, l2 =>
      globMatchF n ps2 l2 ||
        (match l2 with
         | [] => false
         | _ :: rest => globMatchF n ('*' :: ps2) rest)
    | '?' :: _, [] => false
    | '?' :: ps2, _ :: rest => globMatchF n ps2 rest
    | _ :: _, [] => false
    | c :: ps2, d :: rest => (c == d) && globMatchF n ps2 rest

/-- Anchored shell-pattern match (see `globMatchF`). -/
def globMatch (ps l : List Char) : Bool :=
  globMatchF (ps.length + l.length + 1) ps l

/-- One atom of the modeled regular-expression fragment. -/
inductive RAtom where
  | dot
  | lit (c : Char)
deriving DecidableEq

/-- An atom, optionally starred. -/
inductive RPiece where
  | once (a : RAtom)
  | star (a : RAtom)
deriving DecidableEq

/-- Metacharacters outside the modeled regex fragment. -/
def regexSpecials : List Char :=
  ['\\', '^', '$', '|', '?', '+', '(', ')', '[', ']', '{', '}']

/-- Parser for the modeled fragment of Python `re`: literal characters, the
wildcard `.` and the postfix `*`.  Patterns using other metacharacters are
outside the model and rejected here (Python accepts more; every pattern this
development feeds to `re.compile` lies in the fragment).  A leading or
doubled `*` is an error, as in Python (`nothing to repeat`). -/
def compileRegexAux : List RPiece → List Char → Except PyErr (List RPiece)
  | acc, [] => .ok acc.reverse
  | acc, '*' :: rest =>
    match acc with
    | .once a :: acc2 => compileRegexAux (.star a :: acc2) rest
    | _ => .error (.valueError ("invalid regex"))
  | acc, '.' :: rest => compileRegexAux (.once .dot :: acc) rest
  | acc, c :: rest =>
    if regexSpecials.contains c then .error (.valueError ("invalid regex"))
    else compileRegexAux (.once (.lit c) :: acc) rest

/-- Compile a pattern of the modeled regex fragment. -/
def compileRegex (pattern : String) : Except PyErr (List RPiece) :=
  compileRegexAux [] pattern.toList

/-- One-character test of an atom; `ci` is `re.IGNORECASE` (ASCII model);
`.` matches every character but a newline. -/
def atomMatch (ci : Bool) (a : RAtom) (c : Char) : Bool :=
  match a with
  | .dot => !(c == '\n')
  | .lit d => if ci then lowerChar d == lowerChar c else d == c

/-- Fueled semantics of `re.match` (anchored at the start, free at the end)
for the modeled fragment.  Every recursive call strictly decreases
`ps.length + l.length`, so the fuel used by `rmatch` never runs out. -/
def rmatchF : Nat → Bool → List RPiece → List Char → Bool
  | 0, _, _, _ => false
  | n + 1, ci, ps, l =>
    match ps, l with
    | [], _ => true
    | .once _ :: _, [] => false
    | .once a :: ps2, c :: rest => atomMatch ci a c && rmatchF n ci ps2 rest
    | .star _ :: ps2, [] => rmatchF n ci ps2 []
    | .star a :: ps2, c :: rest =>
      rmatchF n ci ps2 (c :: rest) ||
        (atomMatch ci a c && rmatchF n ci (.star a :: ps2) rest)

/-- Anchored regex match for the modeled fragment (see `rmatchF`). -/
def rmatch (ci : Bool) (ps : List RPiece) (l : List Char) : Bool :=
  rmatchF (ps.length + l.length + 1) ci ps l

/-- PathRegexFilter, filefilter.py lines 118-168. -/
structure PathRegexFilter where
  inclusive : Bool
  case_sensitive : Bool
  nodrive : Bool
  pattern : String
  matcher : List RPiece
deriving DecidableEq

/-- PathRegexFilter.__init__ lines 119-128: only regex compilation is
validated; the pattern is never passed through norm_path. -/
def PathRegexFilter.init (pattern : String) (case_sensitive nodrive inclusive : Bool) :
    Except PyErr PathRegexFilter :=
  match compileRegex pattern with
  | .error _ => .error (.valueError ("invalid regex"))
  | .ok r =>
    .ok { inclusive := inclusive, case_sensitive := case_sensitive,
          nodrive := nodrive, pattern := pattern, matcher := r }

/-- The string PathRegexFilter.match (lines 152-168) hands to the compiled
matcher for a given candidate, or `none` where the method returns False
before matching: normalize, optionally strip the drive (empty remainder is
False, a missing leading separator is prepended), reject the empty string,
case-fold when insensitive. -/
def PathRegexFilter.matchInput (f : PathRegexFilter) (path : String) : Option String :=
  let path := normpath path
  if f.nodrive = true then
    let path := (splitdriveS path).2
    if path = "" then none
    else
      let path := if path.toList.head? ≠ some '\\' then "\\" ++ path else path
      if path = "" then none
      else some (if f.case_sensitive then path else Filter.norm_case path)
  else
    if path = "" then none
    else some (if f.case_sensitive then path else Filter.norm_case path)

/-- PathRegexFilter.match lines 152-168. -/
def PathRegexFilter.matchPath (f : PathRegexFilter) (path : String) : Bool :=
  match f.matchInput path with
  | none => false
  | some s => rmatch (!f.case_sensitive) f.matcher s.toList

/-- PathRegexFilter.__str__ lines 140-150. -/
def PathRegexFilter.str (f : PathRegexFilter) : String :=
  (if f.inclusive then "+ " else "- ") ++ "regex:" ++
    (if f.case_sensitive then "case:" else "") ++
    (if f.nodrive then "nodrive:" else "") ++ " " ++ f.pattern

/-- The attribute read `self.__class__.name` on line 133: Python type objects
carry `__name__` but no `name` attribute, so the lookup raises
AttributeError (the sibling classes read `__class__.__name__`). -/
def PathRegexFilter.classNameLookup : Except PyErr String :=
  .error (.attributeError ("type object PathRegexFilter has no attribute name"))

/-- PathRegexFilter.__hash__ lines 130-138: the tuple that is hashed,
modeled as the tuple itself; building it evaluates `self.__class__.name`. -/
def PathRegexFilter.hashKey (f : PathRegexFilter) :
    Except PyErr (String × Bool × Bool × String × Bool) :=
  match PathRegexFilter.classNameLookup with
  | .error e => .error e
  | .ok n => .ok (n, f.inclusive, f.case_sensitive, f.pattern, f.nodrive)

/-- PathTailFilter, filefilter.py lines 170-233. -/
structure PathTailFilter where
  inclusive : Bool
  case_sensitive : Bool
  pattern : String
  seps_count : Nat
deriving DecidableEq

/-- PathTailFilter.__init__ lines 171-183: normalize as a pattern (rejecting
absolute input), assert the absence of glob magic, case-fold when
insensitive, prefix one separator, and count separators. -/
def PathTailFilter.init (pattern : String) (case_sensitive inclusive : Bool) :
    Except PyErr PathTailFilter :=
  match Filter.norm_path pattern true with
  | .error e => .error e
  | .ok pattern =>
    if hasMagic pattern then .error .assertionError
    else
      let pattern := if case_sensitive then pattern else Filter.norm_case pattern
      let pattern := if pattern.toList.head? ≠ some '\\' then "\\" ++ pattern else pattern
      .ok { inclusive := inclusive, case_sensitive := case_sensitive,
            pattern := pattern, seps_count := pattern.toList.count '\\' }

/-- Python `path.rindex('\\', 0, e)` restricted to this use: the largest
index of `\` below `e`, or `none` (where Python raises ValueError). -/
def rindexSep (l : List Char) (e : Nat) : Option Nat :=
  let seg := l.take e
  match seg.reverse.findIdx? (fun c => c == '\\') with
  | some j => some (seg.length - 1 - j)
  | none => none

/-- The backward scan of PathTailFilter.match lines 214-216: `k` times,
`pos = path.rindex(os.sep, 0, pos - 1)`.  A Python `pos` of `0` makes the
slice end `-1`, which indexes from the string's end, so the search then runs
over all but the last character. -/
def tailScan (l : List Char) : Nat → Nat → Except PyErr Nat
  | pos, 0 => .ok pos
  | pos, k + 1 =>
    let e := if pos = 0 then l.length - 1 else pos - 1
    match rindexSep l e with
    | some i => tailScan l i k
    | none => .error (.valueError ("substring not found"))

/-- The final comparison of PathTailFilter.match lines 227-233. -/
def tailCmp (path pattern : String) : Bool :=
  if pattern.length < path.length then pattern.toList.isSuffixOf path.toList
  else if path.length = pattern.length then path == pattern
  else false

/-- PathTailFilter.match lines 201-233: one or no separator in the pattern
compares against the basename; otherwise the candidate is scanned backward
across `seps_count` separators, which raises ValueError when the candidate
has too few of them. -/
def PathTailFilter.matchPath (f : PathTailFilter) (path : String) : Except PyErr Bool :=
  let path := normpath path
  if f.seps_count = 0 ∨ f.seps_count = 1 then
    let b := basenameS path
    let b := if f.case_sensitive then b else Filter.norm_case b
    let b := "\\" ++ b
    .ok (tailCmp b f.pattern)
  else
    let l := path.toList
    match tailScan l l.length f.seps_count with
    | .error e => .error e
    | .ok pos =>
      let path := if 0 < pos then String.mk (l.drop pos) else path
      let path := if f.case_sensitive then path else Filter.norm_case path
      let path := if path.toList.head? ≠ some '\\' then "\\" ++ path else path
      .ok (tailCmp path f.pattern)

/-- PathTailFilter.__str__ lines 195-199: the rendered rule shows the stored
pattern, separator prefix included. -/
def PathTailFilter.str (f : PathTailFilter) : String :=
  (if f.inclusive then "+ " else "- ") ++
    (if f.case_sensitive then "case: " else "") ++ f.pattern

/-- PathTailFilter.__hash__ lines 185-193, as the hashed tuple. -/
def PathTailFilter.hashKey (f : PathTailFilter) : String × Bool × Bool × String × Nat :=
  ("PathTailFilter", f.inclusive, f.case_sensitive, f.pattern, f.seps_count)

/-- PathShellFilter, filefilter.py lines 235-275. -/
structure PathShellFilter where
  inclusive : Bool
  case_sensitive : Bool
  nodrive : Bool
  pattern : String
deriving DecidableEq

/-- PathShellFilter.__init__ lines 236-245: normalize as a pattern, assert
glob magic, case-fold when insensitive.  Patterns with `[...]` character
classes lie outside the modeled fnmatch fragment and are rejected here
(Python accepts them; no pattern of this development carries one). -/
def PathShellFilter.init (pattern : String) (case_sensitive nodrive inclusive : Bool) :
    Except PyErr PathShellFilter :=
  match Filter.norm_path pattern true with
  | .error e => .error e
  | .ok pattern =>
    if ¬ hasMagic pattern = true then .error .assertionError
    else if pattern.toList.contains '[' then
      .error (.valueError ("character class outside modeled fragment"))
    else
      let pattern := if case_sensitive then pattern else Filter.norm_case pattern
      .ok { inclusive := inclusive, case_sensitive := case_sensitive,
            nodrive := nodrive, pattern := pattern }

/-- PathShellFilter.match lines 270-275: normalize, case-fold when
insensitive, anchored shell match.  The stored `nodrive` flag is never read
here, faithfully to the source. -/
def PathShellFilter.matchPath (f : PathShellFilter) (path : String) : Bool :=
  let path := normpath path
  let path := if f.case_sensitive then path else Filter.norm_case path
  globMatch f.pattern.toList path.toList

/-- PathShellFilter.__str__ lines 257-268. -/
def PathShellFilter.str (f : PathShellFilter) : String :=
  let sign := if f.inclusive then "+ " else "- "
  let props := (if f.case_sensitive then "case:" else "") ++
    (if f.nodrive then "nodrive:" else "")
  let props := if props ≠ "" then props ++ " " else props
  sign ++ props ++ f.pattern

/-- PathShellFilter.__hash__ lines 247-255, as the hashed tuple. -/
def PathShellFilter.hashKey (f : PathShellFilter) : String × Bool × Bool × String × Bool :=
  ("PathShellFilter", f.inclusive, f.case_sensitive, f.pattern, f.nodrive)

/-- Split into the maximal runs of characters for which `keep` holds,
dropping separators; models `filter(None, re.split(...))` and the
argument-free `str.split`. -/
def splitRunsAux (keep : Char → Bool) : List Char → List Char → List String
  | cur, [] => if cur = [] then [] else [String.mk cur.reverse]
  | cur, c :: rest =>
    if keep c then splitRunsAux keep (c :: cur) rest
    else if cur = [] then splitRunsAux keep [] rest
    else String.mk cur.reverse :: splitRunsAux keep [] rest

/-- ExtensionsFilter, filefilter.py lines 277-332.  The `frozenset` of
suffixes is modeled as the first-occurrence-deduplicated token list. -/
structure ExtensionsFilter where
  inclusive : Bool
  case_sensitive : Bool
  ext : List String
deriving DecidableEq

/-- ExtensionsFilter.__init__ lines 278-288: case-fold when insensitive,
reject a pattern containing the separator, split on whitespace and
semicolons dropping empties.  No emptiness check is performed. -/
def ExtensionsFilter.init (pattern : String) (case_sensitive inclusive : Bool) :
    Except PyErr ExtensionsFilter :=
  let pattern := if case_sensitive then pattern else Filter.norm_case pattern
  if pattern.toList.contains '\\' then
    .error (.valueError ("invalid or empty ext filter"))
  else
    .ok { inclusive := inclusive, case_sensitive := case_sensitive,
          ext := (splitRunsAux (fun c => !(pyIsSpace c || c == ';')) [] pattern.toList).dedup }

/-- The case-folded base name ExtensionsFilter.match compares against
(lines 317-326; the string branch: `os.path.basename`, no normpath). -/
def ExtensionsFilter.foldedBase (f : ExtensionsFilter) (path : String) : String :=
  let b := basenameS path
  if f.case_sensitive then b else Filter.norm_case b

/-- ExtensionsFilter.match lines 311-332 for a string candidate: an empty
suffix set never matches; otherwise some stored suffix must be strictly
shorter than the base name and a suffix of it. -/
def ExtensionsFilter.matchPath (f : ExtensionsFilter) (path : String) : Bool :=
  if f.ext = [] then false
  else
    let b := f.foldedBase path
    f.ext.any (fun e => decide (e.length < b.length) && e.toList.isSuffixOf b.toList)

/-- ExtensionsFilter.__str__ lines 301-309. -/
def ExtensionsFilter.str (f : ExtensionsFilter) : String :=
  (if f.inclusive then "+ " else "- ") ++ "ext:" ++
    (if f.case_sensitive then "case:" else "") ++ " " ++
    String.intercalate (" ") f.ext

/-- ExtensionsFilter.__hash__ lines 290-294, as the hashed tuple: only the
inclusive flag and the suffix set take part; `case_sensitive` does not. -/
def ExtensionsFilter.hashKey (f : ExtensionsFilter) : Bool × List String :=
  (f.inclusive, f.ext)

/-- The WIN_FILE_ATTRIBUTE table, filefilter.py lines 31-56, with the
numeric values of the `stat.FILE_ATTRIBUTE_*` constants. -/
def WIN_FILE_ATTRIBUTE : List (String × Nat) :=
  [("directory", 16), ("dir", 16), ("hidden", 2), ("symlink", 1024),
   ("reparse_point", 1024), ("compressed", 2048), ("comp", 2048),
   ("archive", 32), ("arch", 32), ("arc", 32), ("encrypted", 16384),
   ("readonly", 1), ("ro", 1), ("system", 4), ("sys", 4)]

/-- WinAttrFilter, filefilter.py lines 335-437.  Matching reads the file
system and stays outside this pure embedding; construction is modeled. -/
structure WinAttrFilter where
  inclusive : Bool
  match_all : Bool
  desired_attr : Nat
  not_desired_attr : Nat
deriving DecidableEq

/-- The token loop of WinAttrFilter.__init__ lines 344-360: a leading `!`
negates, all leading `!` are stripped, names map through the table. -/
def attrFold : Nat → Nat → List String → Except PyErr (Nat × Nat)
  | d, nd, [] => .ok (d, nd)
  | d, nd, tok :: rest =>
    let desired := tok.toList.head? ≠ some '!'
    let name := String.mk (tok.toList.dropWhile (fun c => c == '!'))
    match WIN_FILE_ATTRIBUTE.lookup name with
    | none => .error (.valueError ("unknown file attribute"))
    | some flag =>
      if desired then attrFold (d ||| flag) nd rest
      else attrFold d (nd ||| flag) rest

/-- WinAttrFilter.__init__ lines 336-367. -/
def WinAttrFilter.init (pattern : String) (match_all inclusive : Bool) :
    Except PyErr WinAttrFilter :=
  match attrFold 0 0 (splitRunsAux (fun c => !pyIsSpace c) [] (pyLower pattern).toList) with
  | .error e => .error e
  | .ok (d, nd) =>
    if d = 0 ∧ nd = 0 then .error (.valueError ("empty attr or attr_all filter"))
    else if d &&& nd ≠ 0 then
      .error (.valueError ("colliding attributes"))
    else
      .ok { inclusive := inclusive, match_all := match_all,
            desired_attr := d, not_desired_attr := nd }

/-- The rendering loop of WinAttrFilter.__str__ lines 383-397; clearing a
flag from a mask (`mask &= ~flag`) is `mask ^^^ (mask &&& flag)` on Nat. -/
def attrStrFold : Nat → Nat → List (String × Nat) → String
  | _, _, [] => ""
  | d, nd, (name, flag) :: rest =>
    if d &&& flag ≠ 0 then
      " " ++ name ++ attrStrFold (d ^^^ (d &&& flag)) nd rest
    else if nd &&& flag ≠ 0 then
      " !" ++ name ++ attrStrFold d (nd ^^^ (nd &&& flag)) rest
    else attrStrFold d nd rest

/-- WinAttrFilter.__str__ lines 383-397. -/
def WinAttrFilter.str (f : WinAttrFilter) : String :=
  (if f.inclusive then "+ " else "- ") ++
    (if f.match_all then "attr_all:" else "attr:") ++
    attrStrFold f.desired_attr f.not_desired_attr WIN_FILE_ATTRIBUTE

/-- The sum of the concrete filter classes `create_filter` can return (the
class hierarchy rooted at `Filter`; the name `Filter` itself is taken by
Mathlib). -/
inductive FileFilter where
  | tail (f : PathTailFilter)
  | shell (f : PathShellFilter)
  | regex (f : PathRegexFilter)
  | ext (f : ExtensionsFilter)
  | attr (f : WinAttrFilter)
deriving DecidableEq

/-- Dispatch of the match methods.  Attribute matching queries the file
system and stays outside the pure embedding. -/
def FileFilter.matchPath : FileFilter → String → Except PyErr Bool
  | .tail f, p => f.matchPath p
  | .shell f, p => .ok (f.matchPath p)
  | .regex f, p => .ok (f.matchPath p)
  | .ext f, p => .ok (f.matchPath p)
  | .attr _, _ => .error .notImplementedError

/-- Dispatch of the __str__ renderings. -/
def FileFilter.str : FileFilter → String
  | .tail f => f.str
  | .shell f => f.str
  | .regex f => f.str
  | .ext f => f.str
  | .attr f => f.str

/-- Characters of the property-list character class `[a-z_\:]` of
EXPRESSION_REGEX. -/
def isPropChar (c : Char) : Bool :=
  ('a' ≤ c && c ≤ 'z') || c == '_' || c == ':'

/-- Python `str.strip` (no argument). -/
def stripWs (l : List Char) : List Char :=
  ((l.dropWhile pyIsSpace).reverse.dropWhile pyIsSpace).reverse

/-- Greedy search of the property-group match of EXPRESSION_REGEX at `r1`:
the class `[a-z_\:]{2,}` takes the longest feasible run, then a literal `:`
and at least one whitespace character must follow, and the pattern group
`(.+)` must stay non-empty.  `len` counts down from the maximal run length,
mirroring the backtracking order of the greedy quantifier. -/
def propsSearch (r1 : List Char) : Nat → Option (List Char × List Char)
  | 0 => none
  | 1 => none
  | len + 2 =>
    if r1[len + 2]? = some ':'
        ∧ ((r1.drop (len + 3)).head?.elim false pyIsSpace) = true
        ∧ (r1.drop (len + 3)).dropWhile pyIsSpace ≠ [] then
      some (r1.take (len + 2), (r1.drop (len + 3)).dropWhile pyIsSpace)
    else propsSearch r1 (len + 1)

/-- Property group starting at `r1` (after the optional leading colon). -/
def parsePropsAt (r1 : List Char) : Option (List Char × List Char) :=
  propsSearch r1 (r1.takeWhile isPropChar).length

/-- The optional group `(?:\:?([a-z_\:]{2,})\:\s+)` of EXPRESSION_REGEX:
the greedy `\:?` consumes a leading colon first and backtracks if needed. -/
def parseProps (r : List Char) : Option (List Char × List Char) :=
  if r.head? = some ':' then
    match parsePropsAt r.tail with
    | some x => some x
    | none => parsePropsAt r
  else parsePropsAt r

/-- The three capture groups of EXPRESSION_REGEX (filefilter.py lines
18-25) for one rule line, or `none` when the line does not match: leading
and trailing whitespace is stripped (the trailing `(?<!\s)\s*$` makes the
pattern end at the last non-space), an optional sign `+`/`-` followed by
whitespace, an optional property list, and the non-empty pattern. -/
structure ParsedExpr where
  sign : Option Char
  props : Option String
  pattern : String
deriving DecidableEq

/-- Match EXPRESSION_REGEX against a rule line. -/
def parseExpr (s : String) : Option ParsedExpr :=
  let t := stripWs s.toList
  match t with
  | [] => none
  | c :: rest =>
    let sr : Option Char × List Char :=
      match rest with
      | d :: _ =>
        if (c == '+' || c == '-') && pyIsSpace d then
          (some c, rest.dropWhile pyIsSpace)
        else (none, c :: rest)
      | [] => (none, c :: rest)
    match parseProps sr.2 with
    | some pp => some { sign := sr.1, props := some (String.mk pp.1),
                        pattern := String.mk pp.2 }
    | none => some { sign := sr.1, props := none, pattern := String.mk sr.2 }

/-- Python `props.split(':')` (keeps empty pieces). -/
def splitColonAux : List Char → List Char → List String
  | cur, [] => [String.mk cur.reverse]
  | cur, ':' :: rest => String.mk cur.reverse :: splitColonAux [] rest
  | cur, c :: rest => splitColonAux (c :: cur) rest

/-- The property flags create_filter accumulates (lines 453-458). -/
structure PropFlags where
  is_regex : Bool := false
  is_attr_or : Bool := false
  is_attr_and : Bool := false
  is_ext : Bool := false
  is_nodrive : Bool := false
  is_case_sensitive : Bool := false
deriving DecidableEq

/-- The property loop of create_filter, lines 462-478. -/
def foldProps : PropFlags → List String → Except PyErr PropFlags
  | fl, [] => .ok fl
  | fl, p :: rest =>
    if p = "" then foldProps fl rest
    else if p = "re" ∨ p = "regex" then foldProps { fl with is_regex := true } rest
    else if p = "attr" then foldProps { fl with is_attr_or := true } rest
    else if p = "attr_all" then foldProps { fl with is_attr_and := true } rest
    else if p = "case" then foldProps { fl with is_case_sensitive := true } rest
    else if p = "ext" then foldProps { fl with is_ext := true } rest
    else if p = "nodrive" then foldProps { fl with is_nodrive := true } rest
    else .error (.valueError ("invalid property"))

/-- Count of the mutually exclusive kind flags (line 480). -/
def kindCount (fl : PropFlags) : Nat :=
  (if fl.is_regex then 1 else 0) + (if fl.is_attr_or then 1 else 0) +
    (if fl.is_attr_and then 1 else 0) + (if fl.is_ext then 1 else 0)

/-- create_filter, filefilter.py lines 439-511: parse the rule line,
accumulate property flags, reject mixed kinds, and dispatch on the kind
(the drive-split tail of the pattern decides shell-wildcard against
tail-path when no kind tag is present). -/
def create_filter (expression : String) : Except PyErr FileFilter :=
  match parseExpr expression with
  | none => .error (.valueError ("invalid filter expression"))
  | some pe =>
    let inclusive := pe.sign ≠ some '-'
    let props : List String :=
      match pe.props with
      | none => []
      | some p => splitColonAux [] (pyLower p).toList
    match foldProps {} props with
    | .error e => .error e
    | .ok fl =>
      if 1 < kindCount fl then
        .error (.valueError ("invalid mix of filter properties"))
      else if fl.is_ext then
        match ExtensionsFilter.init pe.pattern fl.is_case_sensitive inclusive with
        | .error e => .error e
        | .ok f => .ok (.ext f)
      else if fl.is_attr_or ∨ fl.is_attr_and then
        if IS_WINDOWS then
          match WinAttrFilter.init pe.pattern fl.is_attr_and inclusive with
          | .error e => .error e
          | .ok f => .ok (.attr f)
        else .error .notImplementedError
      else if fl.is_regex then
        match PathRegexFilter.init pe.pattern fl.is_case_sensitive fl.is_nodrive inclusive with
        | .error e => .error e
        | .ok f => .ok (.regex f)
      else
        let tl := (splitdriveS pe.pattern).2
        if tl ≠ "" ∧ hasMagic tl = true then
          match PathShellFilter.init pe.pattern fl.is_case_sensitive fl.is_nodrive inclusive with
          | .error e => .error e
          | .ok f => .ok (.shell f)
        else
          match PathTailFilter.init pe.pattern fl.is_case_sensitive inclusive with
          | .error e => .error e
          | .ok f => .ok (.tail f)

/- Helper lemmas. -/

/-- Unpacking a packed character list is the identity. -/
theorem toList_mk (l : List Char) : (String.mk l).toList = l := rfl

/-- String concatenation with a one-separator string, on character lists. -/
theorem toList_sep_append (t : String) : ("\\" ++ t).toList = '\\' :: t.toList := rfl

/-- Prefixing the separator never yields the empty string. -/
theorem sep_append_ne_empty (t : String) : ("\\" ++ t) ≠ "" := by
  intro h
  have h2 := congrArg String.toList h
  rw [toList_sep_append] at h2
  exact absurd h2 (by simp)

/-- Characters valid below the surrogate range round-trip through
Char.ofNat. -/
theorem toNat_ofNat_small (n : Nat) (h : n < 55296) : (Char.ofNat n).toNat = n := by
  have hv : n.isValidChar := Or.inl h
  unfold Char.ofNat
  rw [dif_pos hv]
  simp [Char.ofNatAux, Char.toNat, UInt32.toNat]

/-- Lowercasing an ASCII uppercase letter adds 32 to the code point. -/
theorem lowerChar_toNat (c : Char) (h : 65 ≤ c.toNat ∧ c.toNat ≤ 90) :
    (lowerChar c).toNat = c.toNat + 32 := by
  unfold lowerChar
  rw [if_pos h, toNat_ofNat_small _ (by omega)]

/-- Lowercasing fixes everything but ASCII uppercase letters. -/
theorem lowerChar_of_not_upper (d : Char) (h : ¬ (65 ≤ d.toNat ∧ d.toNat ≤ 90)) :
    lowerChar d = d := by
  unfold lowerChar
  rw [if_neg h]

/-- One-character lowercasing is idempotent. -/
theorem lowerChar_idem (c : Char) : lowerChar (lowerChar c) = lowerChar c := by
  by_cases h : 65 ≤ c.toNat ∧ c.toNat ≤ 90
  · exact lowerChar_of_not_upper _ (by have h1 := lowerChar_toNat c h; omega)
  · rw [lowerChar_of_not_upper c h]
    exact lowerChar_of_not_upper c h

/-- Lowercasing introduces no forward slash. -/
theorem lowerChar_ne_slash (c : Char) (h : ¬ c = '/') : ¬ lowerChar c = '/' := by
  by_cases hu : 65 ≤ c.toNat ∧ c.toNat ≤ 90
  · intro he
    have h1 := lowerChar_toNat c hu
    rw [he] at h1
    have h47 : ('/').toNat = 47 := rfl
    omega
  · rw [lowerChar_of_not_upper c hu]
    exact h

/-- Slash replacement fixes non-slash characters. -/
theorem slashChar_of_ne (c : Char) (h : ¬ c = '/') : slashChar c = c := by
  unfold slashChar
  simp [h]

/-- Slash replacement leaves no forward slash behind. -/
theorem slashChar_ne_slash (c : Char) : ¬ slashChar c = '/' := by
  unfold slashChar
  by_cases h : c == '/'
  · simp [h]
  · simp [h]
    intro hc
    simp at h
    exact absurd hc h

/-- One character of the Windows case fold is idempotent. -/
theorem winFoldChar_idem (c : Char) :
    lowerChar (slashChar (lowerChar (slashChar c))) = lowerChar (slashChar c) := by
  have h1 : ¬ slashChar c = '/' := slashChar_ne_slash c
  have h2 : ¬ lowerChar (slashChar c) = '/' := lowerChar_ne_slash _ h1
  rw [slashChar_of_ne _ h2, lowerChar_idem]

/-- Mapping the lowercase fold twice equals mapping it once. -/
theorem map_lowerChar_idem (l : List Char) :
    (l.map lowerChar).map lowerChar = l.map lowerChar := by
  rw [List.map_map]
  exact List.map_congr_left (fun a _ => lowerChar_idem a)

/-- Mapping the Windows fold twice equals mapping it once. -/
theorem map_winFold_idem (l : List Char) :
    ((((l.map slashChar).map lowerChar).map slashChar).map lowerChar)
      = (l.map slashChar).map lowerChar := by
  simp only [List.map_map]
  exact List.map_congr_left (fun a _ => winFoldChar_idem a)

/-- The case fold keeps a leading separator in place. -/
theorem norm_case_head_sep (t : String) (h : t.toList.head? = some '\\') :
    (Filter.norm_case t).toList.head? = some '\\' := by
  show (String.mk ((t.toList.map slashChar).map lowerChar)).toList.head? = some '\\'
  cases ht : t.toList with
  | nil => rw [ht] at h; simp at h
  | cons c l =>
    rw [ht] at h
    simp at h
    rw [h]
    simp only [List.map_cons, toList_mk, List.head?_cons]
    decide

/-- An empty shell pattern rejects a non-empty input at any fuel. -/
theorem globMatchF_nil_cons (n : Nat) (a : Char) (t : List Char) :
    globMatchF n [] (a :: t) = false := by
  cases n <;> rfl

/-- The lone-star pattern accepts everything, given enough fuel. -/
theorem globMatchF_star_all : ∀ (l : List Char) (n : Nat), l.length + 2 ≤ n →
    globMatchF n (['*']) l = true := by
  intro l
  induction l with
  | nil =>
    intro n h
    obtain ⟨m, rfl⟩ : ∃ m, n = m + 2 := ⟨n - 2, by omega⟩
    rfl
  | cons a t ih =>
    intro n h
    obtain ⟨m, rfl⟩ : ∃ m, n = m + 1 := ⟨n - 1, by omega⟩
    have h2 : t.length + 2 ≤ m := by
      simp only [List.length_cons] at h
      omega
    calc globMatchF (m + 1) (['*']) (a :: t)
        = (globMatchF m [] (a :: t) || globMatchF m (['*']) t) := rfl
      _ = (false || true) := by rw [globMatchF_nil_cons, ih m h2]
      _ = true := rfl

/-- The translated pattern `dir\*` accepts exactly the strings beginning
with `dir\`, given enough fuel. -/
theorem glob_dirstar_fuel : ∀ (l : List Char) (n : Nat), l.length + 6 ≤ n →
    globMatchF n (['d', 'i', 'r', '\\', '*']) l
      = (['d', 'i', 'r', '\\']).isPrefixOf l := by
  intro l n h
  match l with
  | [] =>
    obtain ⟨m, rfl⟩ : ∃ m, n = m + 1 := ⟨n - 1, by omega⟩
    rfl
  | [a] =>
    obtain ⟨m, rfl⟩ : ∃ m, n = m + 2 := ⟨n - 2, by omega⟩
    rfl
  | [a, b] =>
    obtain ⟨m, rfl⟩ : ∃ m, n = m + 3 := ⟨n - 3, by omega⟩
    rfl
  | [a, b, c] =>
    obtain ⟨m, rfl⟩ : ∃ m, n = m + 4 := ⟨n - 4, by omega⟩
    rfl
  | a :: b :: c :: d :: rest =>
    obtain ⟨m, rfl⟩ : ∃ m, n = m + 5 := ⟨n - 5, by omega⟩
    have hr : rest.length + 2 ≤ m + 1 := by
      simp only [List.length_cons] at h
      omega
    calc globMatchF (m + 5) (['d', 'i', 'r', '\\', '*']) (a :: b :: c :: d :: rest)
        = (('d' == a) && (('i' == b) && (('r' == c) && (('\\' == d) &&
            globMatchF (m + 1) (['*']) rest)))) := rfl
      _ = (('d' == a) && (('i' == b) && (('r' == c) && (('\\' == d) && true)))) := by
          rw [globMatchF_star_all rest (m + 1) hr]
      _ = (['d', 'i', 'r', '\\']).isPrefixOf (a :: b :: c :: d :: rest) := by
          simp [List.isPrefixOf]

/- Claim theorems. -/

/-- Claim C1 (code_bug evaluation): the render/compile round-trip fails on
the code.  Compiling `test` yields a PathTailFilter whose stored pattern
carries the prepended separator; its rendering is `+ \test`, and compiling
that rendering raises ValueError (`absolute path in filter`) instead of
yielding an equal filter. -/
theorem c1_tail_roundtrip_fails :
    create_filter ("test")
        = .ok (.tail { inclusive := true, case_sensitive := false,
                       pattern := "\\test", seps_count := 1 })
      ∧ FileFilter.str (.tail { inclusive := true, case_sensitive := false,
                                pattern := "\\test", seps_count := 1 }) = "+ \\test"
      ∧ create_filter ("+ \\test")
          = .error (.valueError ("absolute path in filter")) :=
  ⟨rfl, rfl, rfl⟩

/-- Claim C2 (code_bug evaluation): PathTailFilter.match is not total.  The
filter compiled from `a/b` has two separators in its stored pattern, and
matching the one-component candidate `b` raises ValueError out of
`str.rindex` instead of returning False. -/
theorem c2_tail_match_raises_on_short_candidate :
    create_filter ("a/b")
        = .ok (.tail { inclusive := true, case_sensitive := false,
                       pattern := "\\a\\b", seps_count := 2 })
      ∧ PathTailFilter.matchPath
          { inclusive := true, case_sensitive := false,
            pattern := "\\a\\b", seps_count := 2 } ("b")
          = .error (.valueError ("substring not found")) :=
  ⟨rfl, rfl⟩

/-- Claim C3 (code_bug evaluation): the filter compiled from `dir/test`
matches `c:\foo\dir\test` and rejects `c:\foo\_dir\test` (component-boundary
alignment), as claimed; but the claimed equivalence fails on the candidate
`dir/test` itself, whose trailing components equal the pattern's and where
match raises ValueError instead of succeeding. -/
theorem c3_tail_component_boundary :
    create_filter ("dir/test")
        = .ok (.tail { inclusive := true, case_sensitive := false,
                       pattern := "\\dir\\test", seps_count := 2 })
      ∧ PathTailFilter.matchPath
          { inclusive := true, case_sensitive := false,
            pattern := "\\dir\\test", seps_count := 2 } ("c:\\foo\\dir\\test")
          = .ok true
      ∧ PathTailFilter.matchPath
          { inclusive := true, case_sensitive := false,
            pattern := "\\dir\\test", seps_count := 2 } ("c:\\foo\\_dir\\test")
          = .ok false
      ∧ PathTailFilter.matchPath
          { inclusive := true, case_sensitive := false,
            pattern := "\\dir\\test", seps_count := 2 } ("dir/test")
          = .error (.valueError ("substring not found")) :=
  ⟨rfl, rfl, rfl, rfl⟩

/-- Claim C4 counterexample: the ShellWildcard filter compiled from `dir/*`
does match the two-levels-deep candidate `dir/a/b`, because the translated
`*` also matches separator characters; the claim that such candidates fail
is false. -/
theorem c4_shell_star_crosses_separators :
    create_filter ("dir/*")
        = .ok (.shell { inclusive := true, case_sensitive := false,
                        nodrive := false, pattern := "dir\\*" })
      ∧ PathShellFilter.matchPath
          { inclusive := true, case_sensitive := false,
            nodrive := false, pattern := "dir\\*" } ("dir/a/b") = true :=
  ⟨rfl, rfl⟩

/-- Claim C4 as amended: the filter compiled from `dir/*` matches exactly
the candidates whose case-folded normalized form begins with `dir\` — the
anchoring still rejects prefixed candidates such as `\dir\test` or
`c:\foo\dir\test`, but the translated `*` crosses separators, so arbitrarily
deep candidates below `dir` (for example `dir/a/b`) are accepted. -/
theorem c4_shell_star_prefix_semantics :
    create_filter ("dir/*")
        = .ok (.shell { inclusive := true, case_sensitive := false,
                        nodrive := false, pattern := "dir\\*" })
      ∧ ∀ path : String,
          PathShellFilter.matchPath
            { inclusive := true, case_sensitive := false,
              nodrive := false, pattern := "dir\\*" } path
            = (("dir\\").toList.isPrefixOf (Filter.norm_case (normpath path)).toList) := by
  refine ⟨rfl, ?_⟩
  intro path
  show globMatch (("dir\\*").toList) ((Filter.norm_case (normpath path)).toList)
    = (("dir\\").toList.isPrefixOf (Filter.norm_case (normpath path)).toList)
  unfold globMatch
  exact glob_dirstar_fuel _ _ (by
    have h5 : (("dir\\*").toList).length = 5 := rfl
    omega)

/-- Claim C5 counterexample: a Regex filter with the `nodrive` modifier whose
pattern carries a drive (`c:/test`) is constructed successfully — the regex
branch never validates the pattern as a path — contradicting the claim that
such construction fails. -/
theorem c5_regex_nodrive_accepts_drive_pattern :
    create_filter ("regex:nodrive: c:/test")
        = .ok (.regex { inclusive := true, case_sensitive := false, nodrive := true,
                        pattern := "c:/test",
                        matcher := [.once (.lit 'c'), .once (.lit ':'), .once (.lit '/'),
                                    .once (.lit 't'), .once (.lit 'e'), .once (.lit 's'),
                                    .once (.lit 't')] })
      ∧ (splitdriveS ("c:/test")).1 = "c:" :=
  ⟨rfl, rfl⟩

/-- Claim C5 as amended: TailPath and ShellWildcard constructions reject every
absolute or drive-carrying pattern with the pattern-validity ValueError at
construction time; Regex filters (with or without `nodrive`) perform no such
validation. -/
theorem c5_tail_shell_reject_absolute (p : String) (cs nd incl : Bool)
    (h : (splitdriveS (normpath p)).1 ≠ "" ∨ isabsS (splitdriveS (normpath p)).2 = true) :
    PathTailFilter.init p cs incl = .error (.valueError ("absolute path in filter"))
      ∧ PathShellFilter.init p cs nd incl
          = .error (.valueError ("absolute path in filter")) := by
  have hn : Filter.norm_path p true = .error (.valueError ("absolute path in filter")) := by
    unfold Filter.norm_path
    simp only [if_true]
    rw [if_pos h]
  constructor
  · unfold PathTailFilter.init
    rw [hn]
  · unfold PathShellFilter.init
    rw [hn]

/-- Claim C5 witness: the absolute pattern `/test` is rejected by both the
tail and the shell constructors. -/
theorem c5_witness :
    PathTailFilter.init ("/test") false true
        = .error (.valueError ("absolute path in filter"))
      ∧ PathShellFilter.init ("/test") false false true
          = .error (.valueError ("absolute path in filter")) :=
  c5_tail_shell_reject_absolute ("/test") false false true (by decide)

/-- Claim C6 counterexample: the extension pattern `;` resolves to no
suffixes, yet `create_filter` succeeds and returns an ExtensionsFilter with
an empty suffix set — no EmptyFilter error is raised, contradicting the
claim. -/
theorem c6_empty_ext_constructed :
    create_filter ("ext: ;")
      = .ok (.ext { inclusive := true, case_sensitive := false, ext := [] }) :=
  rfl

/-- Claim C6 as amended: an extension pattern resolving to no entries
constructs successfully (construction fails only on separator-carrying
patterns), the resulting suffix set is empty, and such a filter's match
returns False on every candidate. -/
theorem c6_empty_ext_filter_behavior :
    create_filter ("ext: ;")
        = .ok (.ext { inclusive := true, case_sensitive := false, ext := [] })
      ∧ ∀ (f : ExtensionsFilter) (path : String), f.ext = [] →
          f.matchPath path = false := by
  refine ⟨rfl, ?_⟩
  intro f path h
  unfold ExtensionsFilter.matchPath
  rw [if_pos h]

/-- Claim C6 witness: the concrete empty-suffix filter rejects `a`. -/
theorem c6_witness :
    ExtensionsFilter.matchPath
      { inclusive := true, case_sensitive := false, ext := [] } ("a") = false :=
  c6_empty_ext_filter_behavior.2 _ ("a") rfl

/-- Claim C7 (code_bug evaluation): hashing is not total and not flag-exact.
The PathRegexFilter compiled from `regex: x` raises AttributeError when
hashed, because `__hash__` reads `self.__class__.name` where the sibling
classes read `__class__.__name__`; and the ExtensionsFilter hash key omits
`case_sensitive`, so two `.bak` filters differing only in that flag share a
key and compare equal. -/
theorem c7_hash_not_total_nor_flag_exact :
    create_filter ("regex: x")
        = .ok (.regex { inclusive := true, case_sensitive := false, nodrive := false,
                        pattern := "x", matcher := [.once (.lit 'x')] })
      ∧ PathRegexFilter.hashKey
          { inclusive := true, case_sensitive := false, nodrive := false,
            pattern := "x", matcher := [.once (.lit 'x')] }
          = .error (.attributeError ("type object PathRegexFilter has no attribute name"))
      ∧ (ExtensionsFilter.init (".bak") true true).map ExtensionsFilter.hashKey
          = (ExtensionsFilter.init (".bak") false true).map ExtensionsFilter.hashKey :=
  ⟨rfl, rfl, rfl⟩

/-- Claim C8: extension matching succeeds exactly when some stored suffix is
a strict proper suffix of the (folded) base name; in particular a `.bak`
filter accepts `x.bak` and rejects a file literally named `.bak`. -/
theorem c8_ext_strict_proper_suffix :
    (∀ (f : ExtensionsFilter) (path : String),
        f.matchPath path = true
          ↔ ∃ e ∈ f.ext, e.length < (f.foldedBase path).length
              ∧ e.toList.isSuffixOf (f.foldedBase path).toList = true)
      ∧ create_filter ("ext: .bak")
          = .ok (.ext { inclusive := true, case_sensitive := false, ext := [".bak"] })
      ∧ ExtensionsFilter.matchPath
          { inclusive := true, case_sensitive := false, ext := [".bak"] } (".bak") = false
      ∧ ExtensionsFilter.matchPath
          { inclusive := true, case_sensitive := false, ext := [".bak"] } ("x.bak") = true := by
  refine ⟨?_, rfl, rfl, rfl⟩
  intro f path
  unfold ExtensionsFilter.matchPath
  by_cases h : f.ext = []
  · simp [h]
  · rw [if_neg h]
    simp [List.any_eq_true, Bool.and_eq_true, decide_eq_true_eq]

/-- Claim C9 counterexample: on non-Windows platforms the fold applied by the
matchers is Python `str.lower`, not the identity: it sends `A` to `a`. -/
theorem c9_nonwindows_fold_not_identity :
    Filter.norm_case_of false ("A") = ("a")
      ∧ Filter.norm_case_of false ("A") ≠ ("A") := by
  constructor
  · rfl
  · decide

/-- Claim C9 as amended: the fold is `str.lower` on non-Windows platforms and
`ntpath.normcase` (slash replacement plus lowercasing) on Windows; on both
platforms it is idempotent, but on neither is it the identity. -/
theorem c9_fold_case_idempotent (w : Bool) (s : String) :
    Filter.norm_case_of w (Filter.norm_case_of w s) = Filter.norm_case_of w s := by
  cases w
  · show String.mk ((s.toList.map lowerChar).map lowerChar)
      = String.mk (s.toList.map lowerChar)
    rw [map_lowerChar_idem]
  · show String.mk ((((s.toList.map slashChar).map lowerChar).map slashChar).map lowerChar)
      = String.mk ((s.toList.map slashChar).map lowerChar)
    rw [map_winFold_idem]

/-- Claim C10 counterexample: for the nodrive Regex filter compiled from
`regex:nodrive: x`, the device-prefixed candidate `\\?\\x` reaches the
matcher unchanged — ntpath.normpath returns it untouched and splitdrive
strips nothing — so the regex is matched against a string beginning with two
separators, not exactly one. -/
theorem c10_device_path_keeps_two_seps :
    create_filter ("regex:nodrive: x")
        = .ok (.regex { inclusive := true, case_sensitive := false, nodrive := true,
                        pattern := "x", matcher := [.once (.lit 'x')] })
      ∧ PathRegexFilter.matchInput
          { inclusive := true, case_sensitive := false, nodrive := true,
            pattern := "x", matcher := [.once (.lit 'x')] } ("\\\\?\\\\x")
          = some ("\\\\?\\\\x")
      ∧ ("\\\\?\\\\x").toList.take 2 = ['\\', '\\'] :=
  ⟨rfl, rfl, rfl⟩

/-- Claim C10 as amended: for every nodrive Regex filter, an empty post-drive
remainder makes match return False, and whenever the method reaches the
regex, the string handed to it begins with at least one separator (exactly
one for ordinary paths; device-prefixed paths such as `\\?\...` may keep
several). -/
theorem c10_nodrive_sep_normalization :
    (∀ (f : PathRegexFilter) (path : String), f.nodrive = true →
        (splitdriveS (normpath path)).2 = "" → f.matchPath path = false)
      ∧ (∀ (f : PathRegexFilter) (path s : String), f.nodrive = true →
          f.matchInput path = some s → s.toList.head? = some '\\') := by
  constructor
  · intro f path hnd hemp
    unfold PathRegexFilter.matchPath PathRegexFilter.matchInput
    rw [hnd]
    simp [hemp]
  · intro f path s hnd hs
    unfold PathRegexFilter.matchInput at hs
    rw [hnd] at hs
    simp only [eq_self_iff_true, if_true] at hs
    by_cases h1 : (splitdriveS (normpath path)).2 = ""
    · rw [if_pos h1] at hs
      exact absurd hs (by simp)
    · rw [if_neg h1] at hs
      by_cases h2 : ((splitdriveS (normpath path)).2).toList.head? ≠ some '\\'
      · rw [if_pos h2, if_neg (sep_append_ne_empty _)] at hs
        have hs2 := Option.some.inj hs
        cases hcs : f.case_sensitive with
        | true =>
          rw [hcs] at hs2
          simp only [eq_self_iff_true, if_true] at hs2
          rw [← hs2, toList_sep_append]
          rfl
        | false =>
          rw [hcs] at hs2
          simp only [Bool.false_eq_true, if_false] at hs2
          rw [← hs2]
          exact norm_case_head_sep _ (by rw [toList_sep_append]; rfl)
      · rw [if_neg h2, if_neg h1] at hs
        have h2p : ((splitdriveS (normpath path)).2).toList.head? = some '\\' := by
          by_contra hc
          exact h2 hc
        have hs2 := Option.some.inj hs
        cases hcs : f.case_sensitive with
        | true =>
          rw [hcs] at hs2
          simp only [eq_self_iff_true, if_true] at hs2
          rw [← hs2]
          exact h2p
        | false =>
          rw [hcs] at hs2
          simp only [Bool.false_eq_true, if_false] at hs2
          rw [← hs2]
          exact norm_case_head_sep _ h2p

/-- Claim C10 witness: for the concrete nodrive filter, the drive-only
candidate `c:` has an empty remainder and does not match, and the candidate
`x` reaches the matcher as `\x`, which begins with the separator. -/
theorem c10_witness :
    PathRegexFilter.matchPath
        { inclusive := true, case_sensitive := false, nodrive := true,
          pattern := "x", matcher := [.once (.lit 'x')] } ("c:") = false
      ∧ ("\\x").toList.head? = some '\\' := by
  constructor
  · exact c10_nodrive_sep_normalization.1 _ ("c:") rfl (by decide)
  · exact c10_nodrive_sep_normalization.2
      { inclusive := true, case_sensitive := false, nodrive := true,
        pattern := "x", matcher := [.once (.lit 'x')] } ("x") ("\\x") rfl (by decide)
